import Mathlib

/-!
Shallow embedding of the sample-QC decision engine of the cpg-qc pipeline:
hard filtering (`cpg_qc/hard_filtering.py`), population stratification and
ranking (`joint_calling/pop_strat_qc.py`) and the metadata aggregation step
(`scripts/sample_qc.py`).  Hail missing-value semantics are modelled with
`Option`; numeric metric values are modelled as rationals.
-/

namespace CpgQc

/-! ### Hail primitive semantics

Hail boolean operators use strict Kleene logic: `false & missing = false`,
`true | missing = true`, otherwise a missing operand makes the result
missing.  Equality and comparisons propagate missingness. -/

/-- Hail `&` on possibly-missing booleans (Kleene conjunction). -/
def hailAnd : Option Bool → Option Bool → Option Bool
  | some false, _ => some false
  | _, some false => some false
  | some true, some true => some true
  | _, _ => none

/-- Hail `|` on possibly-missing booleans (Kleene disjunction). -/
def hailOr : Option Bool → Option Bool → Option Bool
  | some true, _ => some true
  | _, some true => some true
  | some false, some false => some false
  | _, _ => none

/-- Hail `==`: missing if either side is missing. -/
def hailEq {α : Type} [DecidableEq α] : Option α → Option α → Option Bool
  | some a, some b => some (decide (a = b))
  | _, _ => none

/-- Hail `!=`: missing if either side is missing. -/
def hailNe {α : Type} [DecidableEq α] : Option α → Option α → Option Bool
  | some a, some b => some (decide (a ≠ b))
  | _, _ => none

/-- Hail `hl.is_defined`. -/
def is_defined {α : Type} (x : Option α) : Option Bool :=
  some x.isSome

/-- Hail `hl.or_else`. -/
def or_else {α : Type} (x : Option α) (d : α) : α :=
  x.getD d

/-- Hail `hl.or_missing`. -/
def or_missing {α : Type} (c : Option Bool) (x : Option α) : Option α :=
  match c with
  | some true => x
  | _ => none

/-- Hail set `union`: missing if either operand is missing. -/
def hailUnion {α : Type} [DecidableEq α] :
    Option (Finset α) → Option (Finset α) → Option (Finset α)
  | some x, some y => some (x ∪ y)
  | _, _ => none

/-! ### Hard Filter Engine (`cpg_qc/hard_filtering.py`)

`compute_hard_filters` joins the input matrix-table columns against the sex
table, the bi-allelic sample-QC table and the parsed Picard-metrics table.
A row of the join is modelled as one record per sample; a field is `none`
when the sample is absent from the corresponding table (or, for Picard
metrics, when the stats file was absent so the value was imported as NA). -/

/-- Fields of `sample_qc_ht[s].bi_allelic_sample_qc` read by the engine.
When the sample is present in `sample_qc_ht` all three aggregation results
are defined, so the struct has plain fields and only the lookup is
optional. -/
structure BiAllelicSampleQc where
  n_snp : ℤ
  n_singleton : ℤ
  r_het_hom_var : ℚ
deriving DecidableEq, Repr

/-- One sample's view of the joined inputs of `compute_hard_filters`. -/
structure HardFilterRow where
  s : String
  /-- Field `sex_ht[s].sex_karyotype`. -/
  sex_karyotype : Option String
  /-- Field `sex_ht[s].chr20_mean_dp`. -/
  chr20_mean_dp : Option ℚ
  /-- Field `sample_qc_ht[s].bi_allelic_sample_qc`. -/
  bi_allelic_sample_qc : Option BiAllelicSampleQc
  /-- Field `metrics_ht[s].freemix`. -/
  freemix : Option ℚ
  /-- Field `metrics_ht[s].pct_chimeras`. -/
  pct_chimeras : Option ℚ
  /-- Field `metrics_ht[s].mean_coverage`. -/
  mean_coverage : Option ℚ
  /-- Field `metrics_ht[s].median_insert_size`. -/
  median_insert_size : Option ℚ
deriving DecidableEq, Repr

/-- Helper `add_filter` of `compute_hard_filters`: annotate
`hard_filters = hl.if_else(expr & hl.is_defined(expr),
hard_filters.add(name), hard_filters)`.  The condition
`expr & is_defined(expr)` is never missing (`x & false = false`), so the
`if_else` reduces to a two-way branch. -/
def add_filter (filters : List String) (expr : Option Bool) (name : String) :
    List String :=
  match hailAnd expr (is_defined expr) with
  | some true => filters ++ [name]
  | _ => filters

/-- The per-sample `hard_filters` set built by `compute_hard_filters`
(before the final `filter` that drops passing samples), as the list of
predicate names added in source order. -/
def compute_hard_filters_row (cov_threshold : ℚ) (r : HardFilterRow) :
    List String :=
  let f := ([] : List String)
  let f := add_filter f (r.sex_karyotype.map fun k => decide (k = "ambiguous"))
    "ambiguous_sex"
  let f := add_filter f
    (r.sex_karyotype.map fun k => !decide (k ∈ ["ambiguous", "XX", "XY"]))
    "sex_aneuploidy"
  let f := add_filter f (r.chr20_mean_dp.map fun d => decide (d < cov_threshold))
    "low_coverage"
  let f := add_filter f
    (r.bi_allelic_sample_qc.map fun q =>
      (decide ((q.n_snp : ℚ) > 3.75e6) || decide ((q.n_snp : ℚ) < 2.4e6) ||
       decide ((q.n_singleton : ℚ) > 1e5) || decide (q.r_het_hom_var > 3.3)))
    "bad_qc_metrics"
  let f := add_filter f (r.freemix.map fun x => decide (x > 5.00)) "contamination"
  let f := add_filter f (r.pct_chimeras.map fun x => decide (x > 5.00)) "chimera"
  let f := add_filter f (r.mean_coverage.map fun x => decide (x < 15)) "coverage"
  let f := add_filter f (r.median_insert_size.map fun x => decide (x < 250))
    "insert_size"
  f

/-- Output table of `compute_hard_filters`: one row per sample of the input
cohort, restricted by `ht.filter(hl.len(ht.hard_filters) > 0)` to samples
failing at least one predicate. -/
def compute_hard_filters (cov_threshold : ℚ) (rows : List HardFilterRow) :
    List (String × List String) :=
  (rows.map fun r => (r.s, compute_hard_filters_row cov_threshold r)).filter
    fun p => p.2.length > 0

/-! ### Metadata Aggregator (`scripts/sample_qc.py`, `_generate_metadata`)

`meta_ht` is built from the sex table's rows; per sample it looks up the
hard-filter table (absence modelled as `none`), the regressed-metrics table
(`qc_metrics_filters`, defined for the samples this claim concerns), and
membership in the two related-samples-to-drop tables. -/

/-- One sample's inputs to the verdict derivation of `_generate_metadata`. -/
structure MetaInputs where
  s : String
  /-- Lookup `hard_filtered_samples_ht[s].hard_filters` (`none` = sample absent). -/
  hard_filters_opt : Option (Finset String)
  /-- Lookup `regressed_metrics_ht[s].qc_metrics_filters`. -/
  qc_metrics_filters : Finset String
  /-- Flag `hl.is_defined(final_related_samples_to_drop_ht[s])`. -/
  in_final_related_drop : Bool
  /-- Flag `hl.is_defined(all_related_samples_to_drop_ht[s])`. -/
  in_all_related_drop : Bool
deriving DecidableEq

/-- Modelled from the spec: gnomad's `add_filters_expr`, imported by
`scripts/sample_qc.py` but not part of this repository.  The helper unions
`current_filters` with the names of the given filters whose condition
holds; per Hail set semantics a missing `current_filters` makes the whole
union fold missing. -/
def add_filters_expr (filters : List (String × Bool))
    (current_filters : Option (Finset String)) : Option (Finset String) :=
  current_filters.map fun cur =>
    ((filters.filter fun p => p.2).map Prod.fst).foldl
      (fun acc n => insert n acc) cur

/-- Final per-sample verdict fields derived by `_generate_metadata`.
`sample_filters` and `release` are possibly missing: the second `annotate`
of the source computes `sample_filters` from the pre-default, possibly
missing `hard_filters` (an `annotate` expression sees only the row as it
was before the call), so both stay missing for samples absent from the
hard-filter table. -/
structure MetaRow where
  s : String
  hard_filters : Finset String
  qc_metrics_filters : Finset String
  release_related : Bool
  all_samples_related : Bool
  sample_filters : Option (Finset String)
  high_quality : Bool
  release : Option Bool
deriving DecidableEq

/-- The verdict derivation of `_generate_metadata` for one sample.  The
second `annotate` computes `hard_filters = hl.or_else(hard_filters, {})`
and `sample_filters = add_filters_expr({'related': release_related},
hard_filters.union(qc_metrics_filters))` side by side, both reading the
pre-annotate (undefaulted) `hard_filters`; the third `annotate` then
derives `high_quality` from the defaulted `hard_filters` and
`release = hl.len(sample_filters) == 0`, which is missing whenever
`sample_filters` is. -/
def generate_metadata_row (m : MetaInputs) : MetaRow :=
  let release_related := m.in_final_related_drop
  let hard_filters := or_else m.hard_filters_opt ∅
  let sample_filters := add_filters_expr [("related", release_related)]
    (hailUnion m.hard_filters_opt (some m.qc_metrics_filters))
  { s := m.s
    hard_filters := hard_filters
    qc_metrics_filters := m.qc_metrics_filters
    release_related := release_related
    all_samples_related := m.in_all_related_drop
    sample_filters := sample_filters
    high_quality := decide (hard_filters.card = 0) &&
      decide (m.qc_metrics_filters.card = 0)
    release := sample_filters.map fun sf => decide (sf.card = 0) }

/-! ### Population Classifier (`joint_calling/pop_strat_qc.py`, `assign_pops`)

Samples are drawn from an abstract type `S`, population labels from `P`.
`training_pop` and `pop` are possibly-missing per-sample labels.  The
random-forest classifier of gnomad's `assign_population_pcs` is abstracted
as a function `rf` from the current training assignment to the predicted
`pop` assignment (its statistical content is irrelevant to the loop). -/

section PopStrat

variable {S P : Type} [DecidableEq S] [DecidableEq P]

/-- Number of samples with a defined training label
(`hl.agg.count_where(hl.is_defined(training_pop))`). -/
def training_size (samples : Finset S) (t : S → Option P) : ℕ :=
  (samples.filter fun s => (t s).isSome).card

/-- Hail predicate `training_pop != pop`: true only when both labels are
defined and differ (a missing side makes `!=` missing, and
`hl.agg.count_where` does not count missing). -/
def disagrees (t popf : S → Option P) (s : S) : Bool :=
  (hailNe (t s) (popf s)).getD false

/-- Count `n_mislabeled_samples = hl.agg.count_where(training_pop != pop)`. -/
def mislabeled_count (samples : Finset S) (t popf : S → Option P) : ℕ :=
  (samples.filter fun s => disagrees t popf s).card

/-- The demotion step of the retrain loop:
`training_pop = hl.or_missing((pop_ht.training_pop == pop_ht.pop), training_pop)`. -/
def demote (t popf : S → Option P) : S → Option P := fun s =>
  or_missing (hailEq (t s) (popf s)) (t s)

/-- The retrain loop of `assign_pops`
(`while n_mislabeled_samples > max_mislabeled_training_samples`), written
with explicit fuel; `none` means the fuel was exhausted before the loop
exited.  Returns the final training assignment together with the final
predictions. -/
def assign_pops_loop (rf : (S → Option P) → S → Option P)
    (max_mislabeled : ℕ) (samples : Finset S) :
    ℕ → (S → Option P) → Option ((S → Option P) × (S → Option P))
  | 0, _ => none
  | fuel + 1, t =>
    let popf := rf t
    if mislabeled_count samples t popf > max_mislabeled then
      assign_pops_loop rf max_mislabeled samples fuel (demote t popf)
    else
      some (t, popf)

/-- The stage-identifying message of the modelled fatal configuration
error. -/
def too_small_training_error : String :=
  "population classifier: training set too small to train a classifier"

/-- Modelled from the spec: gnomad's `assign_population_pcs` (not part of
this repository) trains the random forest on the samples holding a training
label; per the spec, a training set that has shrunk too small to train a
classifier is a fatal configuration error, not a silent skip.  The model
raises a stage-identifying error when the training-set size falls below
`min_training`. -/
def rf_with_check (min_training : ℕ) (rf : (S → Option P) → S → Option P)
    (samples : Finset S) (t : S → Option P) : Except String (S → Option P) :=
  if training_size samples t < min_training then
    .error too_small_training_error
  else
    .ok (rf t)

/-- The retrain loop with the fallible modelled classifier: a classifier
error is returned to the caller unchanged (the source loop has no handler
around `_run_assign_population_pcs`). -/
def assign_pops_loopE (rf : (S → Option P) → S → Option P)
    (min_training max_mislabeled : ℕ) (samples : Finset S) :
    ℕ → (S → Option P) →
      Option (Except String ((S → Option P) × (S → Option P)))
  | 0, _ => none
  | fuel + 1, t =>
    match rf_with_check min_training rf samples t with
    | .error e => some (.error e)
    | .ok popf =>
      if mislabeled_count samples t popf > max_mislabeled then
        assign_pops_loopE rf min_training max_mislabeled samples fuel
          (demote t popf)
      else
        some (.ok (t, popf))

end PopStrat

/-! ### Relatedness ranking (`joint_calling/pop_strat_qc.py`,
`_compute_sample_rankings`) -/

/-- A row of the ranking table before sorting: sample id, chr20 coverage
from the sex table, and the computed `filtered` flag. -/
structure RankRow where
  s : String
  chr20_mean_dp : ℚ
  filtered : Bool
deriving DecidableEq, Repr

/-- The `filtered` annotation of `_compute_sample_rankings`:
`hl.or_else(hl.len(hard_filtered_samples_ht[s].hard_filters) > 0, False)`,
extended in the final run (`use_qc_metrics_filters`) by
`hl.cond(filtered, True, hl.or_else(hl.len(qc_metrics_filters) > 0, False))`. -/
def compute_filtered (hard_lookup qc_lookup : String → Option (List String))
    (use_qc_metrics_filters : Bool) (s : String) : Bool :=
  let f := or_else ((hard_lookup s).map fun l => decide (l.length > 0)) false
  if use_qc_metrics_filters then
    if f then true
    else or_else ((qc_lookup s).map fun l => decide (l.length > 0)) false
  else f

/-- The sort order of `ht.order_by(ht.filtered, hl.desc(ht.chr20_mean_dp))`:
ascending on `filtered` (`false < true`), then descending coverage. -/
def rank_le (a b : RankRow) : Bool :=
  (!a.filtered && b.filtered) ||
  (a.filtered == b.filtered && decide (b.chr20_mean_dp ≤ a.chr20_mean_dp))

/-- Rows of the ranking table, from the sex table's `(s, chr20_mean_dp)`
rows and the two filter-table lookups. -/
def mk_rank_rows (sex_rows : List (String × ℚ))
    (hard_lookup qc_lookup : String → Option (List String))
    (use_qc_metrics_filters : Bool) : List RankRow :=
  sex_rows.map fun p =>
    ⟨p.1, p.2, compute_filtered hard_lookup qc_lookup use_qc_metrics_filters p.1⟩

/-- The `order_by` step of `_compute_sample_rankings`. -/
def sorted_rank_rows (sex_rows : List (String × ℚ))
    (hard_lookup qc_lookup : String → Option (List String))
    (use_qc_metrics_filters : Bool) : List RankRow :=
  (mk_rank_rows sex_rows hard_lookup qc_lookup use_qc_metrics_filters).mergeSort
    rank_le

/-- Step `_compute_sample_rankings`: sort by `(filtered, desc coverage)` and
`add_index(name='rank')` — each row paired with its dense integer rank. -/
def compute_sample_rankings (sex_rows : List (String × ℚ))
    (hard_lookup qc_lookup : String → Option (List String))
    (use_qc_metrics_filters : Bool) : List (ℕ × RankRow) :=
  (sorted_rank_rows sex_rows hard_lookup qc_lookup use_qc_metrics_filters).enum

/-! ### Stratified outlier bounds (`compute_stratified_qc` and
`apply_regressed_filters`) -/

/-- Modelled from the spec: gnomad's `compute_stratified_metrics_filter`
(not part of this repository) computes, per (stratum, metric), the robust
bounds `lower = median − lo×MAD` and `upper = median + hi×MAD`, where
`(lo, hi)` is taken from the caller's `metric_threshold` argument and
defaults to `(4, 4)`. -/
def stratified_metric_bounds (metric_threshold : String → Option (ℚ × ℚ))
    (metric : String) (median mad : ℚ) : ℚ × ℚ :=
  let t := (metric_threshold metric).getD (4, 4)
  (median - t.1 * mad, median + t.2 * mad)

/-- The `metric_threshold` dictionary passed by `compute_stratified_qc`
(raw mode): `{'n_singleton': (4.0, 8.0)}`. -/
def raw_metric_threshold : String → Option (ℚ × ℚ) := fun m =>
  if m = "n_singleton" then some (4.0, 8.0) else none

/-- The `metric_threshold` dictionary passed by `apply_regressed_filters`
(residual mode): `{'n_singleton_residual': (4.0, 8.0)}`. -/
def residual_metric_threshold : String → Option (ℚ × ℚ) := fun m =>
  if m = "n_singleton_residual" then some (4.0, 8.0) else none

/-- Bounds produced for a metric by the `compute_stratified_metrics_filter`
call inside `compute_stratified_qc`. -/
def compute_stratified_qc_bounds (metric : String) (median mad : ℚ) : ℚ × ℚ :=
  stratified_metric_bounds raw_metric_threshold metric median mad

/-- Bounds produced for a metric by the `compute_stratified_metrics_filter`
call inside `apply_regressed_filters`. -/
def apply_regressed_filters_bounds (metric : String) (median mad : ℚ) : ℚ × ℚ :=
  stratified_metric_bounds residual_metric_threshold metric median mad

/-! ### Regression sample set (`apply_regressed_filters`) -/

/-- A row of `sample_qc_ht` joined with the PCA scores, before the
`select`. -/
structure RegressionRow where
  s : String
  bi_allelic_sample_qc : BiAllelicSampleQc
  scores : List ℚ
deriving DecidableEq, Repr

/-- A row after `apply_regressed_filters`'s `select`, carrying the
`releasable` annotation. -/
structure RegressionRowSel where
  s : String
  bi_allelic_sample_qc : BiAllelicSampleQc
  scores : List ℚ
  releasable : Bool
deriving DecidableEq, Repr

/-- The `select` of `apply_regressed_filters`:
`sample_qc_ht.select(**bi_allelic_sample_qc, **pop_pca_scores_ht[key],
releasable=hl.bool(True))`. -/
def apply_regressed_filters_select (rows : List RegressionRow) :
    List RegressionRowSel :=
  rows.map fun r => ⟨r.s, r.bi_allelic_sample_qc, r.scores, true⟩

/-- Modelled from the spec: gnomad's `compute_qc_metrics_residuals`
restricts the OLS regression to the rows satisfying
`regression_sample_inclusion_expr`; `apply_regressed_filters` passes the
`releasable` flag as that expression. -/
def regression_sample_set (rows : List RegressionRowSel) :
    List RegressionRowSel :=
  rows.filter fun r => r.releasable

/-! ### Concrete inputs used by the witnesses -/

/-- Sample with every hard-filter input defined; `freemix = 6.0` as in the
spec's end-to-end scenario 2. -/
def rowB : HardFilterRow :=
  ⟨"B", some "XX", some 30, some ⟨3000000, 50000, 2⟩, some 6.0, some 1,
   some 30, some 400⟩

/-- Sample with every hard-filter input defined; `freemix = 3.0`. -/
def rowC : HardFilterRow :=
  ⟨"C", some "XX", some 30, some ⟨3000000, 50000, 2⟩, some 3.0, some 1,
   some 30, some 400⟩

/-- Sample with every hard-filter input missing. -/
def rowNA : HardFilterRow :=
  ⟨"N", none, none, none, none, none, none, none⟩

/-- Metadata inputs for a sample absent from the hard-filter table (it
passed every hard filter), with no QC-metric failures and not related. -/
def metaW : MetaInputs := ⟨"A", none, ∅, false, false⟩

/-- Metadata inputs for a sample present in the hard-filter table. -/
def metaP : MetaInputs := ⟨"P", some {"low_coverage"}, ∅, false, false⟩

/-- Initial training assignment over samples `0` and `1`, both labelled. -/
def t0 : ℕ → Option ℕ := fun s => if s ≤ 1 then some 0 else none

/-- Predictions: sample `0` predicted a different label, sample `1` gets no
accepted prediction (top probability below `min_prob`). -/
def pop0 : ℕ → Option ℕ := fun s => if s = 0 then some 1 else none

/-- A constant classifier returning `pop0` whatever the training set. -/
def rf0 : (ℕ → Option ℕ) → ℕ → Option ℕ := fun _ => pop0

/-- The two-sample cohort for the concrete classifier runs. -/
def samples01 : Finset ℕ := {0, 1}

/-- Concrete sex-table rows for the ranking witness. -/
def sex_rows_w : List (String × ℚ) := [("a", 30), ("c", 20), ("b", 10)]

/-- Hard-filter lookup for the ranking witness: only `"b"` failed. -/
def hard_lookup_w : String → Option (List String) := fun s =>
  if s = "b" then some ["low_coverage"] else none

/-- QC-metrics lookup for the ranking witness: nobody flagged. -/
def qc_lookup_w : String → Option (List String) := fun _ => none

/-- A concrete regression-input row. -/
def regrow_w : RegressionRow := ⟨"A", ⟨3000000, 50000, 2⟩, [1, 2]⟩

/-! ## Theorems -/

theorem mem_add_filter (a : String) (filters : List String) (expr : Option Bool)
    (name : String) :
    a ∈ add_filter filters expr name ↔ a ∈ filters ∨ (expr = some true ∧ a = name) := by
  unfold add_filter
  cases expr with
  | none => simp [hailAnd, is_defined]
  | some b =>
    cases b <;> simp [hailAnd, is_defined]

/-- C1: for a sample with every input defined, `hard_filters` contains
exactly the predicate names whose condition holds: `ambiguous_sex` iff
`sex_karyotype = "ambiguous"`; `sex_aneuploidy` iff the karyotype is not in
{ambiguous, XX, XY}; `low_coverage` iff `chr20_mean_dp < cov_threshold`;
`bad_qc_metrics` iff `n_snp > 3.75e6 ∨ n_snp < 2.4e6 ∨ n_singleton > 1e5 ∨
r_het_hom_var > 3.3`; `contamination` iff `freemix > 5.00`; `chimera` iff
`pct_chimeras > 5.00`; `coverage` iff `mean_coverage < 15`; `insert_size`
iff `median_insert_size < 250` (percent metrics on the 0–100 scale). -/
theorem c1_hard_filters_exact (cov_threshold : ℚ) (r : HardFilterRow)
    (k : String) (dp : ℚ) (q : BiAllelicSampleQc) (fm pc mc ins : ℚ)
    (hk : r.sex_karyotype = some k) (hdp : r.chr20_mean_dp = some dp)
    (hq : r.bi_allelic_sample_qc = some q) (hfm : r.freemix = some fm)
    (hpc : r.pct_chimeras = some pc) (hmc : r.mean_coverage = some mc)
    (hins : r.median_insert_size = some ins) :
    (("ambiguous_sex" ∈ compute_hard_filters_row cov_threshold r) ↔
      k = "ambiguous") ∧
    (("sex_aneuploidy" ∈ compute_hard_filters_row cov_threshold r) ↔
      k ∉ (["ambiguous", "XX", "XY"] : List String)) ∧
    (("low_coverage" ∈ compute_hard_filters_row cov_threshold r) ↔
      dp < cov_threshold) ∧
    (("bad_qc_metrics" ∈ compute_hard_filters_row cov_threshold r) ↔
      ((q.n_snp : ℚ) > 3.75e6 ∨ (q.n_snp : ℚ) < 2.4e6 ∨
       (q.n_singleton : ℚ) > 1e5 ∨ q.r_het_hom_var > 3.3)) ∧
    (("contamination" ∈ compute_hard_filters_row cov_threshold r) ↔
      fm > 5.00) ∧
    (("chimera" ∈ compute_hard_filters_row cov_threshold r) ↔ pc > 5.00) ∧
    (("coverage" ∈ compute_hard_filters_row cov_threshold r) ↔ mc < 15) ∧
    (("insert_size" ∈ compute_hard_filters_row cov_threshold r) ↔
      ins < 250) ∧
    (∀ x ∈ compute_hard_filters_row cov_threshold r,
      x ∈ (["ambiguous_sex", "sex_aneuploidy", "low_coverage",
        "bad_qc_metrics", "contamination", "chimera", "coverage",
        "insert_size"] : List String)) := by
  refine ⟨?_, ?_, ?_, ?_, ?_, ?_, ?_, ?_, ?_⟩ <;>
    simp [compute_hard_filters_row, mem_add_filter, hk, hdp, hq, hfm, hpc,
      hmc, hins] <;> tauto

/-- Witness for C1 at the spec's end-to-end scenario 2: `freemix = 6.0`
triggers `contamination`, `freemix = 3.0` does not. -/
theorem c1_hard_filters_exact_witness :
    ("contamination" ∈ compute_hard_filters_row 18 rowB) ∧
    ("contamination" ∉ compute_hard_filters_row 18 rowC) := by
  constructor
  · exact ((c1_hard_filters_exact 18 rowB ("XX") 30 ⟨3000000, 50000, 2⟩ 6.0 1
      30 400 rfl rfl rfl rfl rfl rfl rfl).2.2.2.2.1).mpr (by norm_num)
  · intro h
    have h6 := ((c1_hard_filters_exact 18 rowC ("XX") 30 ⟨3000000, 50000, 2⟩
      3.0 1 30 400 rfl rfl rfl rfl rfl rfl rfl).2.2.2.2.1).mp h
    norm_num at h6

/-- C5: a predicate whose input is missing for a sample is treated as not
failing: the predicate's name is not added to `hard_filters`, and the
computation is total (no error path exists in the embedding). -/
theorem c5_missing_input_not_failing (cov_threshold : ℚ) (r : HardFilterRow) :
    (r.sex_karyotype = none →
      "ambiguous_sex" ∉ compute_hard_filters_row cov_threshold r ∧
      "sex_aneuploidy" ∉ compute_hard_filters_row cov_threshold r) ∧
    (r.chr20_mean_dp = none →
      "low_coverage" ∉ compute_hard_filters_row cov_threshold r) ∧
    (r.bi_allelic_sample_qc = none →
      "bad_qc_metrics" ∉ compute_hard_filters_row cov_threshold r) ∧
    (r.freemix = none →
      "contamination" ∉ compute_hard_filters_row cov_threshold r) ∧
    (r.pct_chimeras = none →
      "chimera" ∉ compute_hard_filters_row cov_threshold r) ∧
    (r.mean_coverage = none →
      "coverage" ∉ compute_hard_filters_row cov_threshold r) ∧
    (r.median_insert_size = none →
      "insert_size" ∉ compute_hard_filters_row cov_threshold r) := by
  refine ⟨?_, ?_, ?_, ?_, ?_, ?_, ?_⟩ <;> intro h <;>
    simp [compute_hard_filters_row, mem_add_filter, h]

/-- Witness for C5: the all-missing sample triggers no predicate. -/
theorem c5_missing_input_not_failing_witness :
    ("ambiguous_sex" ∉ compute_hard_filters_row 18 rowNA) ∧
    ("low_coverage" ∉ compute_hard_filters_row 18 rowNA) ∧
    ("bad_qc_metrics" ∉ compute_hard_filters_row 18 rowNA) ∧
    ("contamination" ∉ compute_hard_filters_row 18 rowNA) :=
  ⟨((c5_missing_input_not_failing 18 rowNA).1 rfl).1,
   (c5_missing_input_not_failing 18 rowNA).2.1 rfl,
   (c5_missing_input_not_failing 18 rowNA).2.2.1 rfl,
   (c5_missing_input_not_failing 18 rowNA).2.2.2.1 rfl⟩

/-- C6: the hard-filter output table contains exactly the samples failing
at least one predicate; every emitted row has a non-empty `hard_filters`
set, and a sample is absent from the output iff it fails zero predicates. -/
theorem c6_output_restricted_to_failing (cov_threshold : ℚ)
    (rows : List HardFilterRow) :
    (∀ p ∈ compute_hard_filters cov_threshold rows, p.2 ≠ []) ∧
    (∀ r ∈ rows,
      ((r.s, compute_hard_filters_row cov_threshold r) ∈
          compute_hard_filters cov_threshold rows ↔
        compute_hard_filters_row cov_threshold r ≠ [])) := by
  constructor
  · intro p hp
    have hlen : p.2.length > 0 := by
      have := List.of_mem_filter hp
      simpa using this
    exact List.ne_nil_of_length_pos hlen
  · intro r hr
    unfold compute_hard_filters
    rw [List.mem_filter]
    constructor
    · intro hmem
      exact List.ne_nil_of_length_pos (by simpa using hmem.2)
    · intro hne
      refine ⟨List.mem_map_of_mem _ hr, ?_⟩
      simpa using List.length_pos.mpr hne

/-- Witness for C6 on a concrete two-sample cohort: the failing sample
appears in the output, and every output row is non-empty. -/
theorem c6_output_restricted_to_failing_witness :
    (("B", compute_hard_filters_row 18 rowB) ∈
        compute_hard_filters 18 [rowB, rowNA] ↔
      compute_hard_filters_row 18 rowB ≠ []) ∧
    (("B", compute_hard_filters_row 18 rowB) ∈
        compute_hard_filters 18 [rowB, rowNA] → compute_hard_filters_row 18 rowB ≠ []) := by
  refine ⟨?_, ?_⟩
  · exact (c6_output_restricted_to_failing 18 [rowB, rowNA]).2 rowB
      (by simp)
  · intro hmem
    exact (c6_output_restricted_to_failing 18 [rowB, rowNA]).1 _ hmem

/-- C2 (code bug): in the source the `or_else` default of `hard_filters`
and the `sample_filters` union live in one `annotate`
(`sample_qc.py:440-446`), so `sample_filters` reads the pre-default,
possibly missing `hard_filters`.  For every sample absent from the
hard-filter table — i.e. every sample passing all hard filters —
`sample_filters` and hence `release` come out missing, although the
function's own docstring and the spec declare
`release: bool = high_quality & not release_related` (which would be true
here).  This theorem evaluates the faithful embedding at such a sample:
`hard_filters` is defaulted and `high_quality` is true as claimed, the
sample is not related, yet `sample_filters` and `release` are missing
rather than `release = true`; a sample present in the hard-filter table
follows the claimed derivation. -/
theorem c2_metadata_release_missing :
    ((generate_metadata_row metaW).hard_filters = ∅ ∧
     (generate_metadata_row metaW).high_quality = true ∧
     (generate_metadata_row metaW).release_related = false ∧
     (generate_metadata_row metaW).sample_filters = none ∧
     (generate_metadata_row metaW).release = none) ∧
    ((generate_metadata_row metaP).sample_filters = some {"low_coverage"} ∧
     (generate_metadata_row metaP).release = some false ∧
     (generate_metadata_row metaP).high_quality = false) := by
  refine ⟨⟨?_, ?_, ?_, ?_, ?_⟩, ?_, ?_, ?_⟩ <;>
    simp [generate_metadata_row, metaW, metaP, or_else, hailUnion,
      add_filters_expr]

section PopStratTheorems

variable {S P : Type} [DecidableEq S] [DecidableEq P]

theorem disagrees_eq_true_iff (t popf : S → Option P) (s : S) :
    disagrees t popf s = true ↔
      ∃ a b, t s = some a ∧ popf s = some b ∧ a ≠ b := by
  unfold disagrees hailNe
  cases ht : t s with
  | none => simp
  | some a =>
    cases hp : popf s with
    | none => simp
    | some b => simp

theorem demote_isSome_mono (t popf : S → Option P) (s : S)
    (h : (demote t popf s).isSome) : (t s).isSome := by
  unfold demote or_missing at h
  cases heq : hailEq (t s) (popf s) with
  | none => rw [heq] at h; simp at h
  | some b =>
    cases b with
    | false => rw [heq] at h; simp at h
    | true => rw [heq] at h; exact h

theorem demote_eq_none_of_disagrees (t popf : S → Option P) (s : S)
    (h : disagrees t popf s = true) : demote t popf s = none := by
  obtain ⟨a, b, ht, hp, hne⟩ := (disagrees_eq_true_iff t popf s).mp h
  unfold demote hailEq or_missing
  rw [ht, hp]
  simp [hne]

theorem training_size_demote_lt (samples : Finset S) (t popf : S → Option P)
    (h : 0 < mislabeled_count samples t popf) :
    training_size samples (demote t popf) < training_size samples t := by
  obtain ⟨s0, hs0⟩ := Finset.card_pos.mp h
  rw [Finset.mem_filter] at hs0
  obtain ⟨hs0mem, hs0dis⟩ := hs0
  apply Finset.card_lt_card
  constructor
  · intro s hs
    rw [Finset.mem_filter] at hs ⊢
    exact ⟨hs.1, demote_isSome_mono t popf s hs.2⟩
  · intro hsub
    have hmem : s0 ∈ samples.filter fun s => (demote t popf s).isSome := by
      apply hsub
      rw [Finset.mem_filter]
      obtain ⟨a, b, ht, _, _⟩ := (disagrees_eq_true_iff t popf s0).mp hs0dis
      exact ⟨hs0mem, by rw [ht]; rfl⟩
    rw [Finset.mem_filter, demote_eq_none_of_disagrees t popf s0 hs0dis] at hmem
    simp at hmem

theorem assign_pops_loop_isSome (rf : (S → Option P) → S → Option P)
    (max_mislabeled : ℕ) (samples : Finset S) :
    ∀ (fuel : ℕ) (t : S → Option P), training_size samples t < fuel →
      (assign_pops_loop rf max_mislabeled samples fuel t).isSome := by
  intro fuel
  induction fuel with
  | zero => intro t h; exact absurd h (Nat.not_lt_zero _)
  | succ n ih =>
    intro t h
    rw [assign_pops_loop]
    split
    · rename_i hgt
      apply ih
      have hlt := training_size_demote_lt samples t (rf t)
        (Nat.lt_of_le_of_lt (Nat.zero_le _) hgt)
      omega
    · rfl

/-- C3: the retrain loop of `assign_pops` terminates within (initial
training-set size) iterations: fuel of one more than the training-set size
always suffices, because every executed iteration strictly shrinks the set
of samples with a defined training label and demoted samples are never
re-added. -/
theorem c3_assign_pops_terminates (rf : (S → Option P) → S → Option P)
    (max_mislabeled : ℕ) (samples : Finset S) (t : S → Option P) :
    (assign_pops_loop rf max_mislabeled samples
      (training_size samples t + 1) t).isSome :=
  assign_pops_loop_isSome rf max_mislabeled samples _ t
    (Nat.lt_succ_self _)

theorem assign_pops_loopE_isSome (rf : (S → Option P) → S → Option P)
    (min_training max_mislabeled : ℕ) (samples : Finset S) :
    ∀ (fuel : ℕ) (t : S → Option P), training_size samples t < fuel →
      (assign_pops_loopE rf min_training max_mislabeled samples fuel
        t).isSome := by
  intro fuel
  induction fuel with
  | zero => intro t h; exact absurd h (Nat.not_lt_zero _)
  | succ n ih =>
    intro t h
    rw [assign_pops_loopE]
    split
    · rfl
    · rename_i popf hpopf
      have hrf : popf = rf t := by
        unfold rf_with_check at hpopf
        by_cases hc : training_size samples t < min_training
        · rw [if_pos hc] at hpopf
          exact absurd hpopf (by simp)
        · rw [if_neg hc] at hpopf
          injection hpopf with h2
          exact h2.symm
      subst hrf
      split
      · rename_i hgt
        apply ih
        have hlt := training_size_demote_lt samples t (rf t)
          (Nat.lt_of_le_of_lt (Nat.zero_le _) hgt)
        omega
      · rfl

/-- C4: with the spec-modelled classifier, a training set too small to
train is a fatal stage-identifying error returned to the caller (the loop
has no handler and never skips silently), and the loop never needs more
than a bounded number of iterations (training-set size plus one units of
fuel always produce a terminal outcome, converged or error). -/
theorem c4_too_small_training_fatal (rf : (S → Option P) → S → Option P)
    (min_training max_mislabeled : ℕ) (samples : Finset S)
    (t : S → Option P) :
    (training_size samples t < min_training →
      ∀ fuel : ℕ,
        assign_pops_loopE rf min_training max_mislabeled samples (fuel + 1) t =
          some (.error too_small_training_error)) ∧
    (assign_pops_loopE rf min_training max_mislabeled samples
      (training_size samples t + 1) t).isSome := by
  constructor
  · intro hsmall fuel
    rw [assign_pops_loopE]
    unfold rf_with_check
    rw [if_pos hsmall]
  · exact assign_pops_loopE_isSome rf min_training max_mislabeled samples _
      t (Nat.lt_succ_self _)

end PopStratTheorems

/-- Witness for C4: a two-member training set below `min_training = 5`
yields the fatal error immediately. -/
theorem c4_too_small_training_fatal_witness :
    training_size samples01 t0 < 5 ∧
    assign_pops_loopE rf0 5 0 samples01 1 t0 =
      some (.error too_small_training_error) :=
  ⟨by decide, (c4_too_small_training_fatal rf0 5 0 samples01 t0).1
    (by decide) 0⟩

/-- C9: a training sample whose prediction is undefined is not counted as
mislabeled (Hail `!=` is missing when `pop` is missing), yet the demotion
step still clears its training label; hence the demoted samples form a
superset of the counted disagreements, and the loop can converge while
silently demoting such samples — witnessed by the concrete run in the last
conjunct, where sample `1` is never counted but ends up unlabelled. -/
theorem c9_silent_demotion {S P : Type} [DecidableEq S] [DecidableEq P]
    (t popf : S → Option P) :
    (∀ (s : S) (a : P), t s = some a → popf s = none →
      disagrees t popf s = false ∧ demote t popf s = none) ∧
    (∀ s : S, disagrees t popf s = true →
      (t s).isSome ∧ demote t popf s = none) ∧
    (assign_pops_loop rf0 0 samples01 2 t0 = some (demote t0 pop0, pop0) ∧
      t0 1 = some 0 ∧ disagrees t0 pop0 1 = false ∧ demote t0 pop0 1 = none) := by
  refine ⟨?_, ?_, ?_, ?_, ?_, ?_⟩
  · intro s a ht hp
    constructor
    · unfold disagrees hailNe
      rw [ht, hp]
      rfl
    · unfold demote hailEq or_missing
      rw [ht, hp]
  · intro s hdis
    obtain ⟨a, b, ht, hp, hne⟩ := (disagrees_eq_true_iff t popf s).mp hdis
    exact ⟨by rw [ht]; rfl, demote_eq_none_of_disagrees t popf s hdis⟩
  · rfl
  · rfl
  · rfl
  · rfl

/-- Witness for C9: the hypotheses discharged at sample `1` of the concrete
run: labelled in training, prediction undefined, so it is not counted yet
its label is cleared. -/
theorem c9_silent_demotion_witness :
    disagrees t0 pop0 1 = false ∧ demote t0 pop0 1 = none :=
  (c9_silent_demotion t0 pop0).1 1 0 rfl rfl

theorem rank_le_total (a b : RankRow) : rank_le a b || rank_le b a := by
  unfold rank_le
  cases ha : a.filtered <;> cases hb : b.filtered <;> simp [ha, hb] <;>
    exact le_total b.chr20_mean_dp a.chr20_mean_dp

theorem rank_le_trans (a b c : RankRow) (h1 : rank_le a b)
    (h2 : rank_le b c) : rank_le a c := by
  unfold rank_le at h1 h2 ⊢
  cases ha : a.filtered <;> cases hb : b.filtered <;> cases hc : c.filtered <;>
    simp [ha, hb, hc] at h1 h2 ⊢ <;> exact le_trans h2 h1

theorem rank_le_filtered_mono (a b : RankRow) (h : rank_le a b)
    (ha : a.filtered = true) : b.filtered = true := by
  unfold rank_le at h
  rw [ha] at h
  cases hb : b.filtered
  · rw [hb] at h
    simp at h
  · rfl

theorem rank_le_dp_mono (a b : RankRow) (h : rank_le a b)
    (hf : a.filtered = b.filtered) :
    b.chr20_mean_dp ≤ a.chr20_mean_dp := by
  unfold rank_le at h
  rw [hf] at h
  cases hb : b.filtered <;> rw [hb] at h <;> simp at h <;> exact h

/-- C7: the ranking of `_compute_sample_rankings` uses a total comparator;
sorting permutes (keeps) the cohort; ranks are the dense integers
`0 .. n−1`; every filtered sample (hard-filter-failed, or in the final run
with a non-empty `qc_metrics_filters` set, via `compute_filtered` inside
`mk_rank_rows`) is ranked strictly worse than every unfiltered sample; and
within the same filtered status coverage is non-increasing along ranks, so
a strictly higher `chr20_mean_dp` gets a strictly better (lower) rank. -/
theorem c7_sample_rankings (sex_rows : List (String × ℚ))
    (hard_lookup qc_lookup : String → Option (List String))
    (use_qc_metrics_filters : Bool) :
    (∀ a b : RankRow, rank_le a b || rank_le b a) ∧
    (sorted_rank_rows sex_rows hard_lookup qc_lookup
        use_qc_metrics_filters).Perm
      (mk_rank_rows sex_rows hard_lookup qc_lookup use_qc_metrics_filters) ∧
    ((compute_sample_rankings sex_rows hard_lookup qc_lookup
        use_qc_metrics_filters).map Prod.fst =
      List.range (mk_rank_rows sex_rows hard_lookup qc_lookup
        use_qc_metrics_filters).length) ∧
    (∀ p q : ℕ × RankRow,
      p ∈ compute_sample_rankings sex_rows hard_lookup qc_lookup
        use_qc_metrics_filters →
      q ∈ compute_sample_rankings sex_rows hard_lookup qc_lookup
        use_qc_metrics_filters →
      p.1 < q.1 →
      (p.2.filtered = true → q.2.filtered = true) ∧
      (p.2.filtered = q.2.filtered →
        q.2.chr20_mean_dp ≤ p.2.chr20_mean_dp)) := by
  have hsorted : (sorted_rank_rows sex_rows hard_lookup qc_lookup
      use_qc_metrics_filters).Pairwise fun a b => rank_le a b := by
    exact List.sorted_mergeSort rank_le_trans rank_le_total _
  have hget := List.pairwise_iff_get.mp hsorted
  refine ⟨rank_le_total, ?_, ?_, ?_⟩
  · exact List.mergeSort_perm _ _
  · unfold compute_sample_rankings sorted_rank_rows
    rw [List.enum_eq_enumFrom, List.enumFrom_map_fst, ← List.range_eq_range',
      List.length_mergeSort]
  · intro p q hp hq hlt
    rw [compute_sample_rankings, List.mem_enum_iff_getElem?] at hp hq
    obtain ⟨hplen, hpeq⟩ := List.getElem?_eq_some_iff.mp hp
    obtain ⟨hqlen, hqeq⟩ := List.getElem?_eq_some_iff.mp hq
    have hle : rank_le ((sorted_rank_rows sex_rows hard_lookup qc_lookup
        use_qc_metrics_filters).get ⟨p.1, hplen⟩)
        ((sorted_rank_rows sex_rows hard_lookup qc_lookup
          use_qc_metrics_filters).get ⟨q.1, hqlen⟩) :=
      hget ⟨p.1, hplen⟩ ⟨q.1, hqlen⟩ hlt
    rw [List.get_eq_getElem, List.get_eq_getElem, hpeq, hqeq] at hle
    exact ⟨rank_le_filtered_mono _ _ hle, rank_le_dp_mono _ _ hle⟩

/-- Witness for C7: in the concrete cohort the ranks `0` and `1` go to the
two unfiltered samples in order of descending coverage. -/
theorem c7_sample_rankings_witness :
    ((0, (⟨"a", 30, false⟩ : RankRow)) ∈
      compute_sample_rankings sex_rows_w hard_lookup_w qc_lookup_w false) ∧
    ((1, (⟨"c", 20, false⟩ : RankRow)) ∈
      compute_sample_rankings sex_rows_w hard_lookup_w qc_lookup_w false) ∧
    (⟨"c", 20, false⟩ : RankRow).chr20_mean_dp ≤
      (⟨"a", 30, false⟩ : RankRow).chr20_mean_dp := by
  have hm : mk_rank_rows sex_rows_w hard_lookup_w qc_lookup_w false =
      [⟨"a", 30, false⟩, ⟨"c", 20, false⟩, ⟨"b", 10, true⟩] := by decide
  have hs : sorted_rank_rows sex_rows_w hard_lookup_w qc_lookup_w false =
      [⟨"a", 30, false⟩, ⟨"c", 20, false⟩, ⟨"b", 10, true⟩] := by
    unfold sorted_rank_rows
    rw [hm]
    exact List.mergeSort_of_sorted (by decide)
  have h0 : ((0 : ℕ), (⟨"a", 30, false⟩ : RankRow)) ∈
      compute_sample_rankings sex_rows_w hard_lookup_w qc_lookup_w false := by
    rw [compute_sample_rankings, hs]
    decide
  have h1 : ((1 : ℕ), (⟨"c", 20, false⟩ : RankRow)) ∈
      compute_sample_rankings sex_rows_w hard_lookup_w qc_lookup_w false := by
    rw [compute_sample_rankings, hs]
    decide
  refine ⟨h0, h1, ?_⟩
  exact ((c7_sample_rankings sex_rows_w hard_lookup_w qc_lookup_w false).2.2.2
    (0, ⟨"a", 30, false⟩) (1, ⟨"c", 20, false⟩) h0 h1 (by decide)).2 rfl

/-- C8: for every (population, metric) pair the outlier bounds are
`median − 4×MAD` and `median + 4×MAD`, except `n_singleton` in raw mode and
`n_singleton_residual` in residual mode, whose upper bound is
`median + 8×MAD`. -/
theorem c8_stratified_bounds (metric : String) (median mad : ℚ) :
    compute_stratified_qc_bounds metric median mad =
      (median - 4 * mad,
        median + (if metric = "n_singleton" then 8 else 4) * mad) ∧
    apply_regressed_filters_bounds metric median mad =
      (median - 4 * mad,
        median + (if metric = "n_singleton_residual" then 8 else 4) * mad) := by
  constructor
  · unfold compute_stratified_qc_bounds stratified_metric_bounds
      raw_metric_threshold
    split <;> norm_num
  · unfold apply_regressed_filters_bounds stratified_metric_bounds
      residual_metric_threshold
    split <;> norm_num

/-- C10: `apply_regressed_filters` annotates every sample
`releasable = True`, so the regression-inclusion expression holds on every
row and the OLS regression sample set is the whole cohort. -/
theorem c10_regression_includes_all (rows : List RegressionRow) :
    regression_sample_set (apply_regressed_filters_select rows) =
      apply_regressed_filters_select rows ∧
    ∀ r ∈ apply_regressed_filters_select rows, r.releasable = true := by
  constructor
  · apply List.filter_eq_self.mpr
    intro r hr
    simp [apply_regressed_filters_select] at hr
    obtain ⟨x, _, rfl⟩ := hr
    rfl
  · intro r hr
    simp [apply_regressed_filters_select] at hr
    obtain ⟨x, _, rfl⟩ := hr
    rfl

/-- Witness for C10 on a one-row cohort. -/
theorem c10_regression_includes_all_witness :
    regression_sample_set (apply_regressed_filters_select [regrow_w]) =
      apply_regressed_filters_select [regrow_w] ∧
    (⟨"A", ⟨3000000, 50000, 2⟩, [1, 2], true⟩ : RegressionRowSel).releasable
      = true :=
  ⟨(c10_regression_includes_all [regrow_w]).1,
   (c10_regression_includes_all [regrow_w]).2 _ (by simp [apply_regressed_filters_select, regrow_w])⟩

end CpgQc
